import Mathlib

/-!
Shallow embedding of the cognitive_os core (planner / orchestrator /
emotional engine / persistent memory) and proofs about the claims of its
specification.

Sources embedded:
- `core/models.py`: `TaskStatus`, `Task`, `Plan.get_next_task`,
  `EmotionalState.apply_delta`, `EmotionDelta`
- `core/orchestrator.py`: `Orchestrator.handle_user_message` dispatch loop and
  `Orchestrator._execute_task` retry policy
- `core/agents_base.py`: `AgentRegistry.get` (raises on unknown name)
- `core/emotion.py`: `EmotionalEngine.apply_decay_between_turns`,
  `EmotionalEngine.update_on_agent_run`
- `core/memory.py`: `memory_items` store (`store_item`, `load_item_content`),
  `agent_definitions` upsert (`save_agent_definition`), `agent_runs`
  persistence (`log_agent_run` row / `get_recent_agent_runs` row decoding)
- `agents/security_review_agent.py`: keyword scan and blocking action
- `agents/meta_router_agent.py`: governance detection and governance plan

Python floats are modelled as rationals (`ℚ`); SQLite tables as lists of row
structures; timestamps as naturals (`datetime.utcnow` is strictly monotone in
the model, which is what the `ORDER BY created_at DESC` queries rely on);
exceptions as `Except`.
-/

namespace CognitiveOS

/-- Python `needle in haystack` on strings: substring containment. -/
def strContains (haystack needle : String) : Bool :=
  decide (needle.data <:+: haystack.data)

/-- Python `s.lower()`: lowercase every character. -/
def strLower (s : String) : String := String.mk (s.data.map Char.toLower)

-- ---------------------------------------------------------------------------
-- core/models.py
-- ---------------------------------------------------------------------------

/-- `TaskStatus` enum from `core/models.py`. -/
inductive TaskStatus where
  | pending
  | running
  | done
  | error
  deriving DecidableEq, Repr

/-- `AgentRunStatus` enum from `core/models.py`. -/
inductive AgentRunStatus where
  | success
  | failure
  deriving DecidableEq, Repr

/-- The fields of `Task` (`core/models.py`) that the planner / orchestrator
logic reads or writes.  `input_payload`, timestamps, tags and cost metadata are
carried by the real dataclass but never inspected by the embedded logic. -/
structure MTask where
  id : String
  agentName : String
  status : TaskStatus
  dependsOn : List String
  maxRetries : Nat
  retryCount : Nat
  deriving DecidableEq, Repr

/-- One dependency check of `Plan.get_next_task`: a dependency id blocks the
task iff it resolves to a task in the plan whose status is PENDING or RUNNING
(`core/models.py` lines 96-104).  An unknown id never blocks. -/
def depBlocks (tasks : List MTask) (depId : String) : Bool :=
  match tasks.find? (fun t => t.id == depId) with
  | none => false
  | some dep => dep.status == TaskStatus.pending || dep.status == TaskStatus.running

/-- `Plan.get_next_task` (`core/models.py` lines 85-108): first PENDING task
none of whose dependencies blocks. -/
def getNextTask (tasks : List MTask) : Option MTask :=
  tasks.find? (fun t =>
    t.status == TaskStatus.pending && t.dependsOn.all (fun d => !(depBlocks tasks d)))

/-- `Plan.has_pending_tasks` (`core/models.py` lines 110-111). -/
def hasPendingTasks (tasks : List MTask) : Bool :=
  tasks.any (fun t => t.status == TaskStatus.pending)

-- ---------------------------------------------------------------------------
-- core/orchestrator.py — event log and dispatch loop
-- ---------------------------------------------------------------------------

/-- `EventType` enum (`core/models.py` / `core/memory.py`). -/
inductive MEventType where
  | requestReceived
  | planCreated
  | taskAssigned
  | agentRunCompleted
  | agentRunFailed
  deriving DecidableEq, Repr

/-- Abstract behaviour of a registered agent, as the orchestrator observes it.
`Agent.run` (`core/agents_base.py` lines 35-72) catches every exception raised
by `_run_impl` and materialises it as a failure `AgentRun`, so from the
orchestrator's point of view a registered agent is a total function producing
a run with a status and an `output_payload`; the orchestrator only reads the
payload fields `user_visible_message`, `error` and `stop_for_user_input`. -/
structure AgentBeh where
  status : AgentRunStatus
  userVisibleMessage : String
  errorMsg : String
  stopForUserInput : Bool
  deriving DecidableEq, Repr

/-- The agent registry: a finite map from agent names to behaviours.
`AgentRegistry.get` (`core/agents_base.py` lines 99-102) raises `KeyError`
when the name is absent; the lookup itself is `Option`-valued here and the
raise is materialised at the call site in the dispatch loop. -/
def registryGet (registry : List (String × AgentBeh)) (name : String) :
    Option AgentBeh :=
  (registry.find? (fun p => p.1 == name)).map (·.2)

/-- Result of one `Orchestrator._execute_task` (`core/orchestrator.py` lines
195-290) on a task whose agent behaved as `beh`: the updated task, the logged
run event, the user-visible chunk and the `stop_here` flag.
On success the task is marked done; on failure with `retry_count <
max_retries` the task is re-pended with `retry_count + 1`, otherwise marked
error.  A failure with no visible message synthesises the error string. -/
def executeTask (beh : AgentBeh) (t : MTask) :
    MTask × MEventType × String × Bool :=
  let t' : MTask :=
    match beh.status with
    | AgentRunStatus.success => { t with status := TaskStatus.done }
    | AgentRunStatus.failure =>
        if t.retryCount < t.maxRetries then
          { t with retryCount := t.retryCount + 1, status := TaskStatus.pending }
        else
          { t with status := TaskStatus.error }
  let ev :=
    match beh.status with
    | AgentRunStatus.success => MEventType.agentRunCompleted
    | AgentRunStatus.failure => MEventType.agentRunFailed
  let userMsg :=
    if beh.userVisibleMessage = "" && beh.status == AgentRunStatus.failure then
      "[ERRORE nell'agente] " ++ beh.errorMsg
    else
      beh.userVisibleMessage
  (t', ev, userMsg, beh.stopForUserInput)

/-- In-place mutation of the picked task inside `plan.tasks`: the Python code
mutates the shared `Task` object, which the model renders as replacing the
task with that id in the list. -/
def updateTask (tasks : List MTask) (t' : MTask) : List MTask :=
  tasks.map (fun t => if t.id == t'.id then t' else t)

/-- The dispatch loop of `Orchestrator.handle_user_message`
(`core/orchestrator.py` lines 147-182), with the per-turn budget
`max_tasks_per_turn` as fuel.  Each iteration picks `get_next_task`, logs
`TASK_ASSIGNED`, executes the task and logs the run event; an unregistered
`agent_name` makes `AgentRegistry.get` raise `KeyError`, modelled as
`Except.error`.  Returns the events of the loop, the visible chunks, and the
final task list. -/
def taskLoop (registry : List (String × AgentBeh)) :
    Nat → List MTask → Except String (List MEventType × List String × List MTask)
  | 0, tasks => Except.ok ([], [], tasks)
  | budget + 1, tasks =>
    match getNextTask tasks with
    | none => Except.ok ([], [], tasks)
    | some t =>
      match registryGet registry t.agentName with
      | none => Except.error ("KeyError: Agent '" ++ t.agentName ++ "' non trovato")
      | some beh =>
        let r := executeTask beh t
        let tasks' := updateTask tasks r.1
        if r.2.2.2 then
          Except.ok ([MEventType.taskAssigned, r.2.1],
            (if r.2.2.1 = "" then [] else [r.2.2.1]), tasks')
        else
          match taskLoop registry budget tasks' with
          | Except.error e => Except.error e
          | Except.ok (evs, msgs, ts) =>
            Except.ok (MEventType.taskAssigned :: r.2.1 :: evs,
              (if r.2.2.1 = "" then msgs else r.2.2.1 :: msgs), ts)

/-- Fallback reply when the router returned no plan
(`core/orchestrator.py` lines 139-142). -/
def noPlanFallback : String :=
  "Per ora non sono riuscito a costruire un piano di azione per questa richiesta. Possiamo provare a riformulare?"

/-- Fallback reply when no agent produced visible text
(`core/orchestrator.py` lines 184-188). -/
def noOutputFallback : String :=
  "Ho elaborato la tua richiesta, ma nessun agente ha prodotto un messaggio visibile."

/-- `Orchestrator.handle_user_message` (`core/orchestrator.py` lines 57-193)
viewed from after the router call: the plan the router produced (or `none`),
the registry and the budget determine the turn.  The events before the loop
(`REQUEST_RECEIVED`, `PLAN_CREATED`) always precede it; the reply is the
concatenation of the visible chunks, or a fallback. -/
def handleUserMessage (registry : List (String × AgentBeh))
    (plan : Option (List MTask)) (budget : Nat) :
    Except String (List MEventType × String) :=
  match plan with
  | none =>
      Except.ok ([MEventType.requestReceived, MEventType.planCreated], noPlanFallback)
  | some tasks =>
    match taskLoop registry budget tasks with
    | Except.error e => Except.error e
    | Except.ok (evs, msgs, _) =>
      let reply := String.intercalate "\n\n" msgs
      Except.ok (MEventType.requestReceived :: MEventType.planCreated :: evs,
        if reply = "" then noOutputFallback else reply)

-- ---------------------------------------------------------------------------
-- core/models.py — EmotionalState / EmotionDelta; core/emotion.py
-- ---------------------------------------------------------------------------

/-- `EmotionDelta` (`core/models.py` lines 114-127); floats as rationals. -/
structure EmotionDelta where
  curiosity : ℚ := 0
  fatigue : ℚ := 0
  frustration : ℚ := 0
  confidence : ℚ := 0
  mood : ℚ := 0
  energy : ℚ := 0
  playfulness : ℚ := 0
  socialNeed : ℚ := 0
  learningDrive : ℚ := 0
  deriving DecidableEq, Repr

/-- `EmotionalState` (`core/models.py` lines 129-144); floats as rationals. -/
structure EmotionalState where
  curiosity : ℚ := 1/2
  fatigue : ℚ := 0
  frustration : ℚ := 0
  confidence : ℚ := 1/2
  mood : ℚ := 0
  energy : ℚ := 3/5
  playfulness : ℚ := 3/10
  socialNeed : ℚ := 2/5
  learningDrive : ℚ := 7/10
  deriving DecidableEq, Repr

/-- `EmotionalState._clamp01` (`core/models.py` lines 162-164). -/
def clamp01 (value : ℚ) : ℚ := max 0 (min 1 value)

/-- `EmotionalState._clamp` (`core/models.py` lines 166-168). -/
def clamp (value minValue maxValue : ℚ) : ℚ := max minValue (min maxValue value)

/-- `EmotionalState.apply_delta` (`core/models.py` lines 146-160): add each
component and clamp to its declared range. -/
def applyDelta (s : EmotionalState) (d : EmotionDelta) : EmotionalState :=
  { curiosity := clamp01 (s.curiosity + d.curiosity)
    fatigue := clamp01 (s.fatigue + d.fatigue)
    frustration := clamp01 (s.frustration + d.frustration)
    confidence := clamp01 (s.confidence + d.confidence)
    mood := clamp (s.mood + d.mood) (-1) 1
    energy := clamp01 (s.energy + d.energy)
    playfulness := clamp01 (s.playfulness + d.playfulness)
    socialNeed := clamp01 (s.socialNeed + d.socialNeed)
    learningDrive := clamp01 (s.learningDrive + d.learningDrive) }

/-- `EmotionalEngine.apply_decay_between_turns` (`core/emotion.py` lines
13-34). -/
def applyDecayBetweenTurns (s : EmotionalState) : EmotionalState :=
  { s with
    fatigue := s.fatigue * (9/10)
    frustration := s.frustration * (9/10)
    mood := s.mood * (95/100)
    energy := s.energy + (3/5 - s.energy) * (1/10)
    socialNeed := s.socialNeed * (98/100)
    playfulness := s.playfulness * (98/100)
    learningDrive := min 1 (s.learningDrive * (99/100) + 1/100) }

/-- The `EmotionDelta` accumulated by `EmotionalEngine.update_on_agent_run`
(`core/emotion.py` lines 36-83) before `apply_delta` is called: status-based
deltas plus the hard-coded per-agent modulations keyed on substrings of the
lowercased agent name. -/
def runDelta (agentName : String) (status : AgentRunStatus) : EmotionDelta :=
  let isSuccess := status == AgentRunStatus.success
  let lowered := strLower agentName
  let d : EmotionDelta :=
    if isSuccess then
      { confidence := 5/100
        curiosity := 2/100
        fatigue := 5/1000
        frustration := -(2/100)
        mood := 5/100
        energy := 3/100
        learningDrive := 2/100 }
    else
      { confidence := -(5/100)
        frustration := 8/100
        fatigue := 3/100
        mood := -(8/100)
        energy := -(2/100)
        socialNeed := 5/100 }
  let d :=
    if strContains lowered "requirements" && !isSuccess then
      { d with frustration := d.frustration + 5/100, mood := d.mood - 3/100 }
    else d
  let d :=
    if strContains lowered "analysis_planner" && isSuccess then
      { d with
        curiosity := d.curiosity + 3/100
        learningDrive := d.learningDrive + 3/100 }
    else d
  let d :=
    if strContains lowered "chat_agent" then
      { d with socialNeed := d.socialNeed - 2/100 }
    else d
  d

/-- `EmotionalEngine.update_on_agent_run` (`core/emotion.py` lines 36-85):
build the delta from the run and apply it with clamping. -/
def updateOnAgentRun (s : EmotionalState) (agentName : String)
    (status : AgentRunStatus) : EmotionalState :=
  applyDelta s (runDelta agentName status)

/-- All nine components lie in their declared ranges (spec §3
`EmotionalState`): eight in `[0,1]`, `mood` in `[-1,1]`. -/
def EmotionalState.inRange (s : EmotionalState) : Prop :=
  0 ≤ s.curiosity ∧ s.curiosity ≤ 1 ∧
  0 ≤ s.fatigue ∧ s.fatigue ≤ 1 ∧
  0 ≤ s.frustration ∧ s.frustration ≤ 1 ∧
  0 ≤ s.confidence ∧ s.confidence ≤ 1 ∧
  -1 ≤ s.mood ∧ s.mood ≤ 1 ∧
  0 ≤ s.energy ∧ s.energy ≤ 1 ∧
  0 ≤ s.playfulness ∧ s.playfulness ≤ 1 ∧
  0 ≤ s.socialNeed ∧ s.socialNeed ≤ 1 ∧
  0 ≤ s.learningDrive ∧ s.learningDrive ≤ 1

instance (s : EmotionalState) : Decidable s.inRange := by
  unfold EmotionalState.inRange
  infer_instance

-- ---------------------------------------------------------------------------
-- core/memory.py — memory_items (store_item / load_item_content)
-- ---------------------------------------------------------------------------

/-- `MemoryScope` enum (`core/models.py` lines 170-174). -/
inductive MemoryScope where
  | user
  | project
  | global_
  | conversation
  deriving DecidableEq, Repr

/-- `MemoryType` enum (`core/models.py` lines 177-180). -/
inductive MemoryType where
  | episodic
  | semantic
  | procedural
  deriving DecidableEq, Repr

/-- A row of the `memory_items` table (`core/memory.py` schema lines 172-180).
`created_at` is modelled as a natural tick: `datetime.utcnow().isoformat()`
values compare in insertion order in the model. -/
structure MemoryItemRow where
  id : String
  scope : MemoryScope
  type : MemoryType
  key : String
  content : String
  createdAt : Nat
  deriving DecidableEq, Repr

/-- The `memory_items` table together with the current clock tick used for the
next `created_at`. -/
structure MemoryStore where
  items : List MemoryItemRow
  clock : Nat
  deriving DecidableEq, Repr

/-- The `memory_items` table is well formed when every stored row was created
strictly before the current tick. -/
def MemoryStore.WF (st : MemoryStore) : Prop :=
  ∀ r ∈ st.items, r.createdAt < st.clock

/-- `MemoryEngine.store_item` (`core/memory.py` lines 243-287) on a string
`content`: always INSERTs a fresh row (never updates in place).  The `id` is a
fresh UUID; the model takes it as a parameter. -/
def storeItem (st : MemoryStore) (scope : MemoryScope) (type_ : MemoryType)
    (key content newIdStr : String) : MemoryStore :=
  { items := st.items ++
      [{ id := newIdStr, scope := scope, type := type_, key := key,
         content := content, createdAt := st.clock }]
    clock := st.clock + 1 }

/-- The WHERE clause of `MemoryEngine.load_item_content` (`core/memory.py`
lines 421-435): `key = ?` plus optional scope/type filters. -/
def rowMatches (r : MemoryItemRow) (key : String) (scope : Option MemoryScope)
    (type_ : Option MemoryType) : Bool :=
  r.key == key &&
    (match scope with
     | none => true
     | some s => r.scope == s) &&
    (match type_ with
     | none => true
     | some t => r.type == t)

/-- `ORDER BY created_at DESC LIMIT 1`: the matching row with the greatest
`created_at` (rows carry distinct ticks in any reachable store). -/
def latestRow (rows : List MemoryItemRow) : Option MemoryItemRow :=
  rows.foldl
    (fun acc r =>
      match acc with
      | none => some r
      | some b => if b.createdAt < r.createdAt then some r else some b)
    none

/-- `MemoryEngine.load_item_content` (`core/memory.py` lines 409-446):
content of the most recent item with that key (and optional scope/type), or
`none`. -/
def loadItemContent (st : MemoryStore) (key : String)
    (scope : Option MemoryScope) (type_ : Option MemoryType) : Option String :=
  (latestRow (st.items.filter (fun r => rowMatches r key scope type_))).map
    (fun r => r.content)

-- ---------------------------------------------------------------------------
-- core/memory.py — agent_definitions (save_agent_definition)
-- ---------------------------------------------------------------------------

/-- A row of the `agent_definitions` table (`core/memory.py` schema lines
196-205).  `config_json` is the serialized config; `is_active` is the stored
0/1 integer; `created_at` the stored isoformat string. -/
structure AgentDefRow where
  id : String
  name : String
  description : String
  configJson : String
  createdAt : String
  isActive : Int
  parentId : Option String
  lifecycleState : String
  deriving DecidableEq, Repr

/-- The dict handed to `MemoryEngine.save_agent_definition` (`core/memory.py`
lines 586-632), after its `.get` defaulting: `description` defaults to `""`,
`created_at` to now, `is_active` to false, `lifecycle_state` to `"draft"`
(also when present but falsy). -/
structure AgentDefInput where
  id : String
  name : String
  description : Option String
  configJson : String
  createdAt : String
  isActive : Bool
  parentId : Option String
  lifecycleState : Option String
  deriving DecidableEq, Repr

/-- `definition.get("lifecycle_state", "draft") or "draft"`
(`core/memory.py` line 603). -/
def effectiveLifecycle (d : AgentDefInput) : String :=
  match d.lifecycleState with
  | none => "draft"
  | some s => if s = "" then "draft" else s

/-- `MemoryEngine.save_agent_definition` (`core/memory.py` lines 586-632):
`INSERT ... ON CONFLICT(id) DO UPDATE SET name, description, config_json,
is_active, parent_id, lifecycle_state = excluded.*` — `created_at` is not in
the update list.  The table's `UNIQUE` constraint on `name` makes the
statement raise (modelled as `Except.error`) when the written name collides
with a different row. -/
def saveAgentDefinition (table : List AgentDefRow) (d : AgentDefInput) :
    Except String (List AgentDefRow) :=
  let newRow : AgentDefRow :=
    { id := d.id
      name := d.name
      description := d.description.getD ""
      configJson := d.configJson
      createdAt := d.createdAt
      isActive := if d.isActive then 1 else 0
      parentId := d.parentId
      lifecycleState := effectiveLifecycle d }
  if table.any (fun r => r.id == d.id) then
    if table.any (fun r => r.id != d.id && r.name == d.name) then
      Except.error "IntegrityError: UNIQUE constraint failed: agent_definitions.name"
    else
      Except.ok (table.map (fun r =>
        if r.id == d.id then
          { r with
            name := newRow.name
            description := newRow.description
            configJson := newRow.configJson
            isActive := newRow.isActive
            parentId := newRow.parentId
            lifecycleState := newRow.lifecycleState }
        else r))
  else
    if table.any (fun r => r.name == d.name) then
      Except.error "IntegrityError: UNIQUE constraint failed: agent_definitions.name"
    else
      Except.ok (table ++ [newRow])

-- ---------------------------------------------------------------------------
-- core/memory.py — agent_runs (log_agent_run / get_recent_agent_runs)
-- ---------------------------------------------------------------------------

/-- The fields of `AgentRun` (`core/models.py` lines 212-221) that reach the
database; payloads are carried as their JSON serializations. -/
structure MAgentRun where
  id : String
  agentName : String
  inputJson : String
  outputJson : String
  status : AgentRunStatus
  emotionDelta : EmotionDelta
  startedAt : String
  finishedAt : String
  deriving DecidableEq, Repr

/-- A row of the `agent_runs` table (`core/memory.py` schema lines 182-194):
only four of the nine `EmotionDelta` components have columns. -/
structure AgentRunRow where
  id : String
  agentName : String
  inputJson : String
  outputJson : String
  status : AgentRunStatus
  curiosity : ℚ
  fatigue : ℚ
  frustration : ℚ
  confidence : ℚ
  startedAt : String
  finishedAt : String
  deriving DecidableEq, Repr

/-- `MemoryEngine.log_agent_run` (`core/memory.py` lines 555-582): the row
written by the `INSERT OR REPLACE`. -/
def logAgentRunRow (run : MAgentRun) : AgentRunRow :=
  { id := run.id
    agentName := run.agentName
    inputJson := run.inputJson
    outputJson := run.outputJson
    status := run.status
    curiosity := run.emotionDelta.curiosity
    fatigue := run.emotionDelta.fatigue
    frustration := run.emotionDelta.frustration
    confidence := run.emotionDelta.confidence
    startedAt := run.startedAt
    finishedAt := run.finishedAt }

/-- Python `x or 0.0` on a float column value (`core/memory.py` lines 93-96):
the identity on every rational, since `0.0 or 0.0 == 0.0`. -/
def pyOrZero (x : ℚ) : ℚ := if x = 0 then 0 else x

/-- The row decoding loop of `MemoryEngine.get_recent_agent_runs`
(`core/memory.py` lines 71-101): rebuild an `AgentRun` from a row; the five
unpersisted delta components take the dataclass default `0.0`. -/
def rowToAgentRun (row : AgentRunRow) : MAgentRun :=
  { id := row.id
    agentName := row.agentName
    inputJson := row.inputJson
    outputJson := row.outputJson
    status := row.status
    emotionDelta :=
      { curiosity := pyOrZero row.curiosity
        fatigue := pyOrZero row.fatigue
        frustration := pyOrZero row.frustration
        confidence := pyOrZero row.confidence }
    startedAt := row.startedAt
    finishedAt := row.finishedAt }

-- ---------------------------------------------------------------------------
-- agents/security_review_agent.py
-- ---------------------------------------------------------------------------

/-- `DANGEROUS_KEYWORDS` (`agents/security_review_agent.py` lines 19-29),
verbatim — note the mixed-case `subprocess.Popen` entry. -/
def DANGEROUS_KEYWORDS : List String :=
  ["rm -rf", "drop table", "format c:", "shutdown", "kill -9",
   "exec(", "eval(", "subprocess.Popen", "os.system("]

/-- A candidate `AgentDefinition` dict as the security scan reads it:
`name`, `description`, and the string values of `config` in iteration order,
plus the fields the scan mutates. -/
structure CandidateDef where
  id : String
  name : String
  description : String
  configStringValues : List String
  lifecycleState : String
  isActive : Bool
  dangerousKeywords : Option (List String)
  deriving DecidableEq, Repr

/-- `full_text` of one candidate (`agents/security_review_agent.py` lines
117-122): newline-join of name, description and config string values, then
`.lower()`. -/
def candidateFullText (c : CandidateDef) : String :=
  strLower (String.intercalate "\n" (c.name :: c.description :: c.configStringValues))

/-- `hits` for one candidate (`agents/security_review_agent.py` line 123):
the dangerous keywords occurring in the lowercased full text, in list order. -/
def securityHits (c : CandidateDef) : List String :=
  DANGEROUS_KEYWORDS.filter (fun kw => strContains (candidateFullText c) kw)

/-- The `security_alert` item content written on a hit
(`agents/security_review_agent.py` lines 139-153): stored with scope GLOBAL,
type PROCEDURAL, key `security_alert`, whose `agent` field is the candidate's
name. -/
structure SecurityAlert where
  agent : String
  agentId : String
  hits : List String
  deriving DecidableEq, Repr

/-- The per-candidate action of `SecurityReviewAgent._run_impl`
(`agents/security_review_agent.py` lines 112-156): on any hit, force
`lifecycle_state = "draft"` and `is_active = False`, record
`security_flags.dangerous_keywords`, and emit the structured alert; with no
hit, leave the candidate untouched and emit nothing. -/
def reviewCandidate (c : CandidateDef) : CandidateDef × Option SecurityAlert :=
  let hs := securityHits c
  if hs.isEmpty then
    (c, none)
  else
    ({ c with
        lifecycleState := "draft"
        isActive := false
        dangerousKeywords := some hs },
     some { agent := c.name, agentId := c.id, hits := hs })

-- ---------------------------------------------------------------------------
-- agents/meta_router_agent.py — governance detection and governance plan
-- ---------------------------------------------------------------------------

/-- One entry of the metrics map produced by
`MemoryEngine.get_agent_metrics_from_diagnostics`, as
`MetaRouterAgent._detect_governance_intent` reads it: `failure_rate` parsed as
a float and `total_runs` as an int. -/
structure AgentMetric where
  agentName : String
  failureRate : ℚ
  totalRuns : Int
  deriving DecidableEq, Repr

/-- The governance keyword list of `MetaRouterAgent._detect_governance_intent`
(`agents/meta_router_agent.py` lines 117-134). -/
def govKeywords : List String :=
  ["nuovo agent", "nuovo agente", "crea un agent", "crea un agente",
   "migliora l'agent", "migliora l'agente", "refactor", "rifattorizza",
   "rifattorizzare", "migliora il codice", "ottimizza il sistema",
   "governance", "architettura", "auto-miglioramento", "self improvement",
   "self-improvement"]

/-- `MetaRouterAgent._detect_governance_intent` (`agents/meta_router_agent.py`
lines 96-165): returns `(governance_mode, governance_reason,
governance_targets)`.  Order of checks: forced flag, explicit user keywords,
metric trigger (`total_runs >= 5 and failure_rate >= 0.6`) gated by
`frustration >= 0.4`. -/
def detectGovernanceIntent (userLast : String) (forceGovernance : Bool)
    (governanceTargetAgent : Option String) (metrics : List AgentMetric)
    (frustration : ℚ) : Bool × String × List String :=
  let text := strLower userLast
  if forceGovernance then
    let targets :=
      match governanceTargetAgent with
      | some target => if target ≠ "" then [target] else []
      | none => []
    (true, "force_governance_flag", targets)
  else if govKeywords.any (fun kw => strContains text kw) then
    (true, "explicit_user_governance_request", [])
  else
    let badCandidates :=
      (metrics.filter (fun m => 5 ≤ m.totalRuns && 6/10 ≤ m.failureRate)).map
        (fun m => m.agentName)
    if badCandidates.isEmpty then
      (false, "", [])
    else if frustration < 4/10 then
      (false, "", [])
    else
      (true, "high_failure_rate_agents", badCandidates)

/-- One step of a governance plan; the step dicts built by
`MetaRouterAgent._build_governance_plan` also carry an input payload,
`cost_estimate` and `budget`, which the claims never inspect. -/
structure PlanStep where
  agent : String
  description : String
  dependsOn : List String
  maxRetries : Nat
  deriving DecidableEq, Repr

/-- The `add_step` closure of `MetaRouterAgent._build_governance_plan`
(`agents/meta_router_agent.py` lines 206-219): append unless the plan already
has `max_steps` steps. -/
def addStep (maxSteps : Nat) (plan : List PlanStep) (s : PlanStep) :
    List PlanStep :=
  if maxSteps ≤ plan.length then plan else plan ++ [s]

/-- `MetaRouterAgent._build_governance_plan` (`agents/meta_router_agent.py`
lines 194-267): the fixed six-agent pipeline, each step admitted through
`add_step`. -/
def buildGovernancePlan (maxSteps : Nat) : List PlanStep :=
  let plan : List PlanStep := []
  let plan := addStep maxSteps plan
    { agent := "architect_agent"
      description := "Definisce o aggiorna la configurazione degli agent candidati alla governance."
      dependsOn := [], maxRetries := 0 }
  let plan := addStep maxSteps plan
    { agent := "security_review_agent"
      description := "Esegue un controllo di sicurezza sui nuovi/aggiornati agent."
      dependsOn := [], maxRetries := 0 }
  let plan := addStep maxSteps plan
    { agent := "validator_agent"
      description := "Verifica la correttezza tecnica delle definizioni di agent."
      dependsOn := [], maxRetries := 0 }
  let plan := addStep maxSteps plan
    { agent := "critic_agent"
      description := "Valuta la qualità degli agent candidati e suggerisce promozioni/deprecazioni."
      dependsOn := [], maxRetries := 0 }
  let plan := addStep maxSteps plan
    { agent := "curator_agent"
      description := "Applica le decisioni di governance (promozioni, deprecazioni) in base a critic/sicurezza/diagnostica."
      dependsOn := [], maxRetries := 0 }
  let plan := addStep maxSteps plan
    { agent := "codegen_agent"
      description := "Genera o aggiorna il codice sorgente per le AgentDefinition approvate."
      dependsOn := [], maxRetries := 0 }
  plan

/-- The step-enrichment loop of `MetaRouterAgent._run_impl` in governance mode
(`agents/meta_router_agent.py` lines 406-423): steps with a falsy agent name
are dropped, the rest get ids `<plan_id>_step_<idx>` with `idx` counted from 1
over the original list. -/
structure EnrichedStep where
  id : String
  agent : String
  description : String
  dependsOn : List String
  maxRetries : Nat
  deriving DecidableEq, Repr

/-- Enrichment of a step list (`agents/meta_router_agent.py` lines 406-423). -/
def enrichPlan (internalPlanId : String) (steps : List PlanStep) :
    List EnrichedStep :=
  steps.enum.filterMap (fun p =>
    if p.2.agent = "" then
      none
    else
      some
        { id := internalPlanId ++ "_step_" ++ toString (p.1 + 1)
          agent := p.2.agent
          description := p.2.description
          dependsOn := p.2.dependsOn
          maxRetries := p.2.maxRetries })

/-- The fixed governance pipeline order stated by the spec (§4.4). -/
def governancePipeline : List String :=
  ["architect_agent", "security_review_agent", "validator_agent",
   "critic_agent", "curator_agent", "codegen_agent"]

-- ---------------------------------------------------------------------------
-- Helper lemmas
-- ---------------------------------------------------------------------------

theorem pyOrZero_eq (x : ℚ) : pyOrZero x = x := by
  unfold pyOrZero
  split <;> simp_all

theorem clamp01_nonneg (x : ℚ) : 0 ≤ clamp01 x := le_max_left _ _

theorem clamp01_le_one (x : ℚ) : clamp01 x ≤ 1 :=
  max_le zero_le_one (min_le_left _ _)

theorem clamp_lower (x lo hi : ℚ) : lo ≤ clamp x lo hi := le_max_left _ _

theorem clamp_upper (x lo hi : ℚ) (h : lo ≤ hi) : clamp x lo hi ≤ hi :=
  max_le h (min_le_left _ _)

theorem latestRow_mem {rows : List MemoryItemRow} {r : MemoryItemRow}
    (h : latestRow rows = some r) : r ∈ rows := by
  unfold latestRow at h
  suffices H : ∀ (acc : Option MemoryItemRow),
      rows.foldl
        (fun acc r =>
          match acc with
          | none => some r
          | some b => if b.createdAt < r.createdAt then some r else some b)
        acc = some r → acc = some r ∨ r ∈ rows by
    rcases H none h with hc | hm
    · exact absurd hc (by simp)
    · exact hm
  clear h
  induction rows with
  | nil => intro acc hacc; exact Or.inl hacc
  | cons a l ih =>
    intro acc hacc
    simp only [List.foldl_cons] at hacc
    rcases ih _ hacc with hc | hm
    · match acc with
      | none =>
        simp only at hc
        exact Or.inr (by simp [← Option.some.inj hc])
      | some b =>
        simp only at hc
        split at hc
        · exact Or.inr (by simp [← Option.some.inj hc])
        · exact Or.inl hc
    · exact Or.inr (List.mem_cons_of_mem _ hm)

-- ---------------------------------------------------------------------------
-- Claims
-- ---------------------------------------------------------------------------

/-- C6: for every emotional state whose components start within their declared
ranges and for every delta, both `EmotionalState.apply_delta` and
`EmotionalEngine.apply_decay_between_turns` keep every component within its
declared range (eight components in [0,1], mood in [-1,1]). -/
theorem claim6_updates_stay_in_range (s : EmotionalState) (d : EmotionDelta)
    (hs : s.inRange) :
    (applyDelta s d).inRange ∧ (applyDecayBetweenTurns s).inRange := by
  obtain ⟨h1, h2, h3, h4, h5, h6, h7, h8, h9, h10, h11, h12, h13, h14, h15,
    h16, h17, h18⟩ := hs
  constructor
  · exact ⟨clamp01_nonneg _, clamp01_le_one _, clamp01_nonneg _,
      clamp01_le_one _, clamp01_nonneg _, clamp01_le_one _, clamp01_nonneg _,
      clamp01_le_one _, clamp_lower _ _ _, clamp_upper _ _ _ (by norm_num),
      clamp01_nonneg _, clamp01_le_one _, clamp01_nonneg _, clamp01_le_one _,
      clamp01_nonneg _, clamp01_le_one _, clamp01_nonneg _, clamp01_le_one _⟩
  · unfold applyDecayBetweenTurns EmotionalState.inRange
    refine ⟨h1, h2, by nlinarith, by nlinarith, by nlinarith, by nlinarith,
      h7, h8, by nlinarith, by nlinarith, by nlinarith, by nlinarith,
      by nlinarith, by nlinarith, by nlinarith, by nlinarith,
      le_min (by norm_num) (by nlinarith), min_le_left _ _⟩

/-- Witness for C6 at the default emotional state and the zero delta. -/
theorem claim6_updates_stay_in_range_witness :
    EmotionalState.inRange {} ∧
      ((applyDelta {} {}).inRange ∧ (applyDecayBetweenTurns {}).inRange) :=
  ⟨by norm_num [EmotionalState.inRange],
   claim6_updates_stay_in_range {} {} (by norm_num [EmotionalState.inRange])⟩

/-- C9: storing an item and immediately loading by the same key, scope and
type returns exactly the stored content (`store_item` then
`load_item_content`). -/
theorem claim9_store_then_load (st : MemoryStore) (s : MemoryScope)
    (t : MemoryType) (k c nid : String) (hwf : st.WF) :
    loadItemContent (storeItem st s t k c nid) k (some s) (some t) = some c := by
  unfold loadItemContent storeItem
  simp only
  set flt := fun r => rowMatches r k (some s) (some t) with hflt
  set row : MemoryItemRow :=
    { id := nid, scope := s, type := t, key := k, content := c,
      createdAt := st.clock } with hrow
  have hmatch : flt row = true := by simp [hflt, hrow, rowMatches]
  rw [List.filter_append]
  have hsing : List.filter flt [row] = [row] := by simp [hmatch]
  rw [hsing]
  have hfold : latestRow (List.filter flt st.items ++ [row]) =
      match latestRow (List.filter flt st.items) with
      | none => some row
      | some b => if b.createdAt < row.createdAt then some row else some b := by
    unfold latestRow
    rw [List.foldl_append]
    rfl
  rw [hfold]
  cases hl : latestRow (List.filter flt st.items) with
  | none => simp
  | some b =>
    have hb : b ∈ st.items := List.mem_of_mem_filter (latestRow_mem hl)
    have hlt : b.createdAt < row.createdAt := hwf b hb
    simp [hlt]

/-- Witness for C9: on the empty store, writing key `k` and reading it back
yields the written content. -/
theorem claim9_store_then_load_witness :
    MemoryStore.WF { items := [], clock := 0 } ∧
      loadItemContent
        (storeItem { items := [], clock := 0 } MemoryScope.user
          MemoryType.semantic "k" "hello" "id-1")
        "k" (some MemoryScope.user) (some MemoryType.semantic) = some "hello" :=
  ⟨by intro r hr; simp at hr,
   claim9_store_then_load _ _ _ _ _ _ (by intro r hr; simp at hr)⟩

/-- C10: round-tripping an `AgentRun` through the `agent_runs` row written by
`log_agent_run` and the decoding of `get_recent_agent_runs` preserves
everything except the emotion delta, of which only curiosity, fatigue,
frustration and confidence survive; the other five components read back
as 0. -/
theorem claim10_emotion_delta_roundtrip (run : MAgentRun) :
    rowToAgentRun (logAgentRunRow run) =
      { run with
        emotionDelta :=
          { curiosity := run.emotionDelta.curiosity
            fatigue := run.emotionDelta.fatigue
            frustration := run.emotionDelta.frustration
            confidence := run.emotionDelta.confidence
            mood := 0
            energy := 0
            playfulness := 0
            socialNeed := 0
            learningDrive := 0 } } := by
  cases run
  simp [rowToAgentRun, logAgentRunRow, pyOrZero_eq]

/-- C5 counterexample: the run of an agent named `chatter` — whose name
contains the substring `chat` — gets no extra `-0.02` on `social_need`: the
code keys on the substring `chat_agent`, so the delta's social_need stays at
the plain status-based value (0 for success), not `-0.02`. -/
theorem claim5_chat_counterexample :
    strContains "chatter" "chat" = true ∧
      (runDelta "chatter" AgentRunStatus.success).socialNeed = 0 ∧
      (0 : ℚ) ≠ 0 + -(2/100) := by
  refine ⟨by decide, ?_, by norm_num⟩
  have h1 : strContains (strLower "chatter") "requirements" = false := by decide
  have h2 : strContains (strLower "chatter") "analysis_planner" = false := by
    decide
  have h3 : strContains (strLower "chatter") "chat_agent" = false := by decide
  simp [runDelta, h1, h2, h3]

/-- C5 (amended): for every run whose lowercased agent name contains the
substring `chat_agent`, `update_on_agent_run` adds an extra `-0.02` to
`social_need` before clamping, on top of the status-based delta (0 on
success, `+0.05` on failure). -/
theorem claim5_chat_agent_social_need (agentName : String)
    (status : AgentRunStatus)
    (h : strContains (strLower agentName) "chat_agent" = true) :
    (runDelta agentName status).socialNeed =
      (if status == AgentRunStatus.success then 0 else 5/100) + -(2/100) := by
  cases status <;>
    · simp only [runDelta, h, Bool.and_self, if_true, beq_self_eq_true,
        Bool.and_true, Bool.and_false]
      split <;> split <;> simp [sub_eq_add_neg]

/-- Witness for C5 (amended) at the literal agent name `chat_agent` and a
failed run. -/
theorem claim5_chat_agent_social_need_witness :
    strContains (strLower "chat_agent") "chat_agent" = true ∧
      (runDelta "chat_agent" AgentRunStatus.failure).socialNeed =
        (if AgentRunStatus.failure == AgentRunStatus.success then 0
         else 5/100) + -(2/100) :=
  ⟨by decide, claim5_chat_agent_social_need "chat_agent"
    AgentRunStatus.failure (by decide)⟩

/-- The failing input for C4: an agent definition whose config string value
contains the dangerous keyword `subprocess.Popen` verbatim. -/
def popenCandidate : CandidateDef :=
  { id := "def-42"
    name := "proc_helper"
    description := "Agent di supporto"
    configStringValues := ["import subprocess\nsubprocess.Popen(cmd)"]
    lifecycleState := "active"
    isActive := true
    dangerousKeywords := none }

set_option maxRecDepth 8000

/-- C4: `SecurityReviewAgent` lowercases the concatenated text but keeps the
mixed-case keyword `subprocess.Popen` in `DANGEROUS_KEYWORDS`, so a
definition that literally contains `subprocess.Popen` produces no hit: it is
not forced to draft, not deactivated, and no `security_alert` is emitted —
the scan is not case-insensitive for this keyword, against the spec's intent
and the code's own lowercasing. -/
theorem claim4_popen_never_flagged :
    "subprocess.Popen" ∈ DANGEROUS_KEYWORDS ∧
      strContains "import subprocess\nsubprocess.Popen(cmd)"
        "subprocess.Popen" = true ∧
      securityHits popenCandidate = [] ∧
      reviewCandidate popenCandidate = (popenCandidate, none) := by
  refine ⟨by decide, by decide, ?_, ?_⟩
  · decide
  · have h : securityHits popenCandidate = [] := by decide
    simp [reviewCandidate, h]

/-- A stored agent definition used to exhibit C3's behaviour on update. -/
def c3Row : AgentDefRow :=
  { id := "def-1"
    name := "old_name"
    description := "d0"
    configJson := "config-v0"
    createdAt := "2024-01-01T00:00:00"
    isActive := 1
    parentId := none
    lifecycleState := "active" }

/-- An update for the same id carrying a different name. -/
def c3Input : AgentDefInput :=
  { id := "def-1"
    name := "new_name"
    description := some "d1"
    configJson := "config-v1"
    createdAt := "2025-06-01T00:00:00"
    isActive := false
    parentId := some "def-0"
    lifecycleState := some "test" }

/-- The row after the update: every mutable column from the new definition,
`created_at` kept. -/
def c3RowAfter : AgentDefRow :=
  { id := "def-1"
    name := "new_name"
    description := "d1"
    configJson := "config-v1"
    createdAt := "2024-01-01T00:00:00"
    isActive := 0
    parentId := some "def-0"
    lifecycleState := "test" }

/-- C3 counterexample: saving a definition whose id is already stored but
whose name differs DOES update the stored name — the `ON CONFLICT(id) DO
UPDATE` clause sets `name = excluded.name` — so the stored name is not left
unchanged as claimed. -/
theorem claim3_name_updated_counterexample :
    saveAgentDefinition [c3Row] c3Input = Except.ok [c3RowAfter] ∧
      c3Row.name = "old_name" ∧ c3RowAfter.name = "new_name" := by
  refine ⟨by rfl, by decide, by decide⟩

/-- C3 (amended): on an update by existing id, `save_agent_definition` sets
the stored name, description, config, is_active, parent_id and
lifecycle_state from the new definition and leaves only id and created_at
unchanged; rows with other ids are untouched. -/
theorem claim3_update_mutable_fields (table : List AgentDefRow)
    (d : AgentDefInput) (table' : List AgentDefRow)
    (hok : saveAgentDefinition table d = Except.ok table')
    (hex : table.any (fun r => r.id == d.id) = true) :
    table'.length = table.length ∧
      ∀ i : Fin table.length,
        ∃ hi : (i : Nat) < table'.length,
          ((table.get i).id ≠ d.id → table'.get ⟨i, hi⟩ = table.get i) ∧
          ((table.get i).id = d.id →
            table'.get ⟨i, hi⟩ =
              { table.get i with
                name := d.name
                description := d.description.getD ""
                configJson := d.configJson
                isActive := if d.isActive then 1 else 0
                parentId := d.parentId
                lifecycleState := effectiveLifecycle d }) := by
  unfold saveAgentDefinition at hok
  rw [if_pos hex] at hok
  by_cases hc : table.any (fun r => r.id != d.id && r.name == d.name) = true
  · rw [if_pos hc] at hok
    exact absurd hok (by simp)
  · rw [if_neg hc] at hok
    have htab : table' = table.map (fun r =>
        if r.id == d.id then
          { r with
            name := d.name
            description := d.description.getD ""
            configJson := d.configJson
            isActive := if d.isActive then 1 else 0
            parentId := d.parentId
            lifecycleState := effectiveLifecycle d }
        else r) := by
      exact (Except.ok.inj hok).symm
    subst htab
    refine ⟨List.length_map _ _, ?_⟩
    intro i
    refine ⟨by simp only [List.length_map]; exact i.isLt, ?_, ?_⟩
    · intro hne
      rw [List.get_eq_getElem, List.get_eq_getElem, List.getElem_map]
      rw [if_neg (by simp [List.get_eq_getElem] at hne; simp [hne])]
    · intro heq
      rw [List.get_eq_getElem, List.get_eq_getElem, List.getElem_map]
      rw [if_pos (by simp [List.get_eq_getElem] at heq; simp [heq])]

/-- Witness for C3 (amended) at the one-row table. -/
theorem claim3_update_mutable_fields_witness :
    saveAgentDefinition [c3Row] c3Input = Except.ok [c3RowAfter] ∧
      ([c3RowAfter].length = [c3Row].length ∧
        ∀ i : Fin [c3Row].length,
          ∃ hi : (i : Nat) < [c3RowAfter].length,
            (([c3Row].get i).id ≠ c3Input.id →
              [c3RowAfter].get ⟨i, hi⟩ = [c3Row].get i) ∧
            (([c3Row].get i).id = c3Input.id →
              [c3RowAfter].get ⟨i, hi⟩ =
                { [c3Row].get i with
                  name := c3Input.name
                  description := c3Input.description.getD ""
                  configJson := c3Input.configJson
                  isActive := if c3Input.isActive then 1 else 0
                  parentId := c3Input.parentId
                  lifecycleState := effectiveLifecycle c3Input })) :=
  ⟨by rfl,
   claim3_update_mutable_fields [c3Row] c3Input [c3RowAfter] (by rfl)
     (by decide)⟩

/-- A task already in status error. -/
def c1TaskA : MTask :=
  { id := "a", agentName := "worker_a", status := TaskStatus.error,
    dependsOn := [], maxRetries := 0, retryCount := 0 }

/-- A pending task depending (in-plan) on the errored task `a`. -/
def c1TaskB : MTask :=
  { id := "b", agentName := "worker_b", status := TaskStatus.pending,
    dependsOn := ["a"], maxRetries := 0, retryCount := 0 }

/-- Registry for the C1 scenario: only `worker_b` is registered. -/
def c1Registry : List (String × AgentBeh) :=
  [("worker_b",
    { status := AgentRunStatus.success, userVisibleMessage := "done b",
      errorMsg := "", stopForUserInput := false })]

/-- C1: a pending task whose in-plan dependency has status error IS returned
by `Plan.get_next_task` and IS executed by the dispatch loop — the dependency
check only blocks on PENDING/RUNNING dependencies, so an ERROR dependency
counts as satisfied, contradicting both the spec and the function's own
docstring (deps "tutte completate (status DONE)"). -/
theorem claim1_error_dep_task_executes :
    c1TaskA.status = TaskStatus.error ∧
      c1TaskB.dependsOn = [c1TaskA.id] ∧
      c1TaskB.status = TaskStatus.pending ∧
      getNextTask [c1TaskA, c1TaskB] = some c1TaskB ∧
      taskLoop c1Registry 10 [c1TaskA, c1TaskB] =
        Except.ok
          ([MEventType.taskAssigned, MEventType.agentRunCompleted],
           ["done b"],
           [c1TaskA, { c1TaskB with status := TaskStatus.done }]) :=
  ⟨by decide, by decide, by decide, by decide, by rfl⟩

/-- A plan task naming an agent absent from the registry. -/
def c2GhostTask : MTask :=
  { id := "t1", agentName := "ghost_agent", status := TaskStatus.pending,
    dependsOn := [], maxRetries := 0, retryCount := 0 }

/-- C2 counterexample: when the produced plan contains a task whose
`agent_name` is not registered, `AgentRegistry.get` raises `KeyError` inside
the dispatch loop and `handle_user_message` propagates it instead of
returning a string. -/
theorem claim2_unregistered_agent_raises :
    handleUserMessage [] (some [c2GhostTask]) 10 =
      Except.error "KeyError: Agent 'ghost_agent' non trovato" := by
  rfl

theorem executeTask_agentName (beh : AgentBeh) (t : MTask) :
    ((executeTask beh t).1).agentName = t.agentName := by
  unfold executeTask
  cases beh.status
  · rfl
  · simp only
    split <;> rfl

theorem mem_updateTask {tasks : List MTask} {u x : MTask}
    (hx : x ∈ updateTask tasks u) : x ∈ tasks ∨ x = u := by
  unfold updateTask at hx
  rcases List.mem_map.1 hx with ⟨a, ha, hax⟩
  by_cases h : (a.id == u.id) = true
  · rw [if_pos h] at hax
    exact Or.inr hax.symm
  · rw [if_neg h] at hax
    exact Or.inl (hax ▸ ha)

theorem getNextTask_mem {tasks : List MTask} {t : MTask}
    (h : getNextTask tasks = some t) : t ∈ tasks :=
  List.mem_of_find?_eq_some h

theorem taskLoop_ok (registry : List (String × AgentBeh)) :
    ∀ (budget : Nat) (tasks : List MTask),
      (∀ t ∈ tasks, (registryGet registry t.agentName).isSome = true) →
      ∃ out, taskLoop registry budget tasks = Except.ok out := by
  intro budget
  induction budget with
  | zero => exact fun tasks _ => ⟨_, rfl⟩
  | succ b ih =>
    intro tasks h
    rw [taskLoop]
    cases hn : getNextTask tasks with
    | none => exact ⟨_, rfl⟩
    | some t =>
      have hsome := h t (getNextTask_mem hn)
      obtain ⟨beh, hbeh⟩ := Option.isSome_iff_exists.mp hsome
      simp only [hbeh]
      have h' : ∀ x ∈ updateTask tasks (executeTask beh t).1,
          (registryGet registry x.agentName).isSome = true := by
        intro x hx
        rcases mem_updateTask hx with hm | hxu
        · exact h x hm
        · rw [hxu, executeTask_agentName]
          exact h t (getNextTask_mem hn)
      obtain ⟨out, hout⟩ := ih (updateTask tasks (executeTask beh t).1) h'
      by_cases hstop : (executeTask beh t).2.2.2 = true
      · simp only [hstop, if_true]
        exact ⟨_, rfl⟩
      · simp only [Bool.not_eq_true] at hstop
        simp only [hstop, Bool.false_eq_true, if_false, hout]
        exact ⟨_, rfl⟩

/-- C2 (amended): exceptions raised inside a registered agent are caught by
`Agent.run` and never abort the orchestrator, so whenever every task of the
produced plan names a registered agent, `handle_user_message` returns a
string; but if some task's `agent_name` is unregistered, the `KeyError` of
`AgentRegistry.get` propagates to the caller. -/
theorem claim2_registered_agents_return_string
    (registry : List (String × AgentBeh)) (tasks : List MTask) (budget : Nat)
    (h : ∀ t ∈ tasks, (registryGet registry t.agentName).isSome = true) :
    ∃ out, handleUserMessage registry (some tasks) budget = Except.ok out := by
  obtain ⟨⟨evs, msgs, ts⟩, hout⟩ := taskLoop_ok registry budget tasks h
  unfold handleUserMessage
  simp only [hout]
  exact ⟨_, rfl⟩

/-- Behaviour of the registered echo agent used by the C2 witness. -/
def c2EchoBeh : AgentBeh :=
  { status := AgentRunStatus.success, userVisibleMessage := "ciao",
    errorMsg := "", stopForUserInput := false }

/-- A one-task plan naming the registered agent. -/
def c2EchoTask : MTask :=
  { id := "t1", agentName := "echo_agent", status := TaskStatus.pending,
    dependsOn := [], maxRetries := 0, retryCount := 0 }

/-- Witness for C2 (amended): a fully registered one-task plan yields a
string reply. -/
theorem claim2_registered_agents_return_string_witness :
    (∀ t ∈ [c2EchoTask],
      (registryGet [("echo_agent", c2EchoBeh)] t.agentName).isSome = true) ∧
      ∃ out, handleUserMessage [("echo_agent", c2EchoBeh)]
        (some [c2EchoTask]) 10 = Except.ok out :=
  ⟨by decide,
   claim2_registered_agents_return_string [("echo_agent", c2EchoBeh)]
     [c2EchoTask] 10 (by decide)⟩

theorem taskLoop_no_ready (registry : List (String × AgentBeh)) (b : Nat)
    (tasks : List MTask) (h : getNextTask tasks = none) :
    taskLoop registry b tasks = Except.ok ([], [], tasks) := by
  cases b with
  | zero => rfl
  | succ b => rw [taskLoop, h]

theorem taskLoop_step (registry : List (String × AgentBeh)) (b : Nat)
    (tasks : List MTask) (t : MTask) (beh : AgentBeh)
    (hn : getNextTask tasks = some t)
    (hreg : registryGet registry t.agentName = some beh)
    (hstop : beh.stopForUserInput = false) :
    taskLoop registry (b + 1) tasks =
      match taskLoop registry b (updateTask tasks (executeTask beh t).1) with
      | Except.error e => Except.error e
      | Except.ok (evs, msgs, ts) =>
        Except.ok (MEventType.taskAssigned :: (executeTask beh t).2.1 :: evs,
          (if (executeTask beh t).2.2.1 = "" then msgs
           else (executeTask beh t).2.2.1 :: msgs), ts) := by
  rw [taskLoop, hn]
  simp only [hreg]
  have : (executeTask beh t).2.2.2 = false := by
    unfold executeTask
    cases beh.status <;> simp [hstop]
  simp only [this, Bool.false_eq_true, if_false]

theorem updateTask_singleton (t u : MTask) (h : u.id = t.id) :
    updateTask [t] u = [u] := by
  simp [updateTask, h]

/-- Behaviour of an always-failing agent that also requests
`stop_for_user_input`. -/
def c7StopBeh : AgentBeh :=
  { status := AgentRunStatus.failure, userVisibleMessage := "",
    errorMsg := "boom", stopForUserInput := true }

/-- A fresh task with two retries allowed. -/
def c7Task : MTask :=
  { id := "t7", agentName := "flaky_agent", status := TaskStatus.pending,
    dependsOn := [], maxRetries := 2, retryCount := 0 }

/-- C7 counterexample: an agent that fails on every invocation but sets
`stop_for_user_input` in its output halts the turn after the FIRST failure:
only one `TASK_ASSIGNED` / `AGENT_RUN_FAILED` pair is emitted and the task is
left pending with `retry_count = 1`, not in status error — so with budget 10
the claimed three events and terminal error status do not hold for every
always-failing agent. -/
theorem claim7_stop_flag_counterexample :
    c7Task.maxRetries = 2 ∧
      c7StopBeh.status = AgentRunStatus.failure ∧
      taskLoop [("flaky_agent", c7StopBeh)] 10 [c7Task] =
        Except.ok ([MEventType.taskAssigned, MEventType.agentRunFailed],
          ["[ERRORE nell'agente] boom"],
          [{ c7Task with status := TaskStatus.pending, retryCount := 1 }]) :=
  ⟨by decide, by decide, by rfl⟩

/-- C7 (amended): for every task with `max_retries = 2` whose agent fails on
every invocation without requesting `stop_for_user_input`, a single turn with
task budget at least 3 emits exactly three `TASK_ASSIGNED` and three
`AGENT_RUN_FAILED` events for that task, which terminates in status error;
the retry counter moves 0 → 1 → 2 → 2: monotonically non-decreasing and never
above `max_retries + 1` (indeed never above `max_retries`). -/
theorem claim7_retry_then_give_up (registry : List (String × AgentBeh))
    (idStr name msg err : String) (b : Nat) (hb : 3 ≤ b)
    (hreg : registryGet registry name =
      some { status := AgentRunStatus.failure, userVisibleMessage := msg,
             errorMsg := err, stopForUserInput := false }) :
    (∃ msgs, taskLoop registry b
        [{ id := idStr, agentName := name, status := TaskStatus.pending,
           dependsOn := [], maxRetries := 2, retryCount := 0 }] =
      Except.ok
        ([MEventType.taskAssigned, MEventType.agentRunFailed,
          MEventType.taskAssigned, MEventType.agentRunFailed,
          MEventType.taskAssigned, MEventType.agentRunFailed],
         msgs,
         [{ id := idStr, agentName := name, status := TaskStatus.error,
            dependsOn := [], maxRetries := 2, retryCount := 2 }])) ∧
      (let beh : AgentBeh :=
        { status := AgentRunStatus.failure, userVisibleMessage := msg,
          errorMsg := err, stopForUserInput := false }
       let t0 : MTask :=
        { id := idStr, agentName := name, status := TaskStatus.pending,
          dependsOn := [], maxRetries := 2, retryCount := 0 }
       let t1 := (executeTask beh t0).1
       let t2 := (executeTask beh t1).1
       let t3 := (executeTask beh t2).1
       t1.retryCount = 1 ∧ t2.retryCount = 2 ∧ t3.retryCount = 2 ∧
         t3.status = TaskStatus.error ∧
         t0.retryCount ≤ t1.retryCount ∧ t1.retryCount ≤ t2.retryCount ∧
         t2.retryCount ≤ t3.retryCount ∧
         t3.retryCount ≤ t0.maxRetries + 1) := by
  obtain ⟨k, rfl⟩ : ∃ k, b = k + 3 := ⟨b - 3, by omega⟩
  refine ⟨?_, rfl, rfl, rfl, rfl, Nat.zero_le _, (by decide : (1 : Nat) ≤ 2),
    (by decide : (2 : Nat) ≤ 2), (by decide : (2 : Nat) ≤ 3)⟩
  set beh : AgentBeh :=
    { status := AgentRunStatus.failure, userVisibleMessage := msg,
      errorMsg := err, stopForUserInput := false } with hbeh
  set t0 : MTask :=
    { id := idStr, agentName := name, status := TaskStatus.pending,
      dependsOn := [], maxRetries := 2, retryCount := 0 } with ht0
  have hstop : beh.stopForUserInput = false := rfl
  have hreg0 : registryGet registry t0.agentName = some beh := hreg
  have hs1 := taskLoop_step registry (k + 2) [t0] t0 beh rfl hreg0 hstop
  have hu1 : updateTask [t0] (executeTask beh t0).1 = [(executeTask beh t0).1] :=
    updateTask_singleton _ _ rfl
  have hreg1 : registryGet registry ((executeTask beh t0).1).agentName = some beh := hreg
  have hs2 := taskLoop_step registry (k + 1) [(executeTask beh t0).1]
    ((executeTask beh t0).1) beh rfl hreg1 hstop
  have hu2 : updateTask [(executeTask beh t0).1]
      (executeTask beh (executeTask beh t0).1).1 =
      [(executeTask beh (executeTask beh t0).1).1] :=
    updateTask_singleton _ _ rfl
  have hreg2 : registryGet registry
      ((executeTask beh (executeTask beh t0).1).1).agentName = some beh := hreg
  have hs3 := taskLoop_step registry k [(executeTask beh (executeTask beh t0).1).1]
    ((executeTask beh (executeTask beh t0).1).1) beh rfl hreg2 hstop
  have hu3 : updateTask [(executeTask beh (executeTask beh t0).1).1]
      (executeTask beh (executeTask beh (executeTask beh t0).1).1).1 =
      [(executeTask beh (executeTask beh (executeTask beh t0).1).1).1] :=
    updateTask_singleton _ _ rfl
  have hend : taskLoop registry k
      [(executeTask beh (executeTask beh (executeTask beh t0).1).1).1] =
      Except.ok ([], [],
        [(executeTask beh (executeTask beh (executeTask beh t0).1).1).1]) :=
    taskLoop_no_ready _ _ _ rfl
  rw [hs1, hu1, hs2, hu2, hs3, hu3, hend]
  exact ⟨_, rfl⟩

/-- Behaviour of an always-failing agent that does not request a stop. -/
def c7FailBeh : AgentBeh :=
  { status := AgentRunStatus.failure, userVisibleMessage := "",
    errorMsg := "boom", stopForUserInput := false }

/-- Registry for the C7 witness. -/
def c7Registry : List (String × AgentBeh) := [("flaky_agent", c7FailBeh)]

/-- Witness for C7 (amended): the always-failing registered agent, budget
exactly 3. -/
theorem claim7_retry_then_give_up_witness :
    (3 ≤ 3) ∧
      registryGet c7Registry "flaky_agent" =
        some { status := AgentRunStatus.failure, userVisibleMessage := "",
               errorMsg := "boom", stopForUserInput := false } ∧
      ((∃ msgs, taskLoop c7Registry 3
          [{ id := "t7", agentName := "flaky_agent",
             status := TaskStatus.pending, dependsOn := [], maxRetries := 2,
             retryCount := 0 }] =
        Except.ok
          ([MEventType.taskAssigned, MEventType.agentRunFailed,
            MEventType.taskAssigned, MEventType.agentRunFailed,
            MEventType.taskAssigned, MEventType.agentRunFailed],
           msgs,
           [{ id := "t7", agentName := "flaky_agent",
              status := TaskStatus.error, dependsOn := [], maxRetries := 2,
              retryCount := 2 }])) ∧
        (let beh : AgentBeh :=
          { status := AgentRunStatus.failure, userVisibleMessage := "",
            errorMsg := "boom", stopForUserInput := false }
         let t0 : MTask :=
          { id := "t7", agentName := "flaky_agent",
            status := TaskStatus.pending, dependsOn := [], maxRetries := 2,
            retryCount := 0 }
         let t1 := (executeTask beh t0).1
         let t2 := (executeTask beh t1).1
         let t3 := (executeTask beh t2).1
         t1.retryCount = 1 ∧ t2.retryCount = 2 ∧ t3.retryCount = 2 ∧
           t3.status = TaskStatus.error ∧
           t0.retryCount ≤ t1.retryCount ∧ t1.retryCount ≤ t2.retryCount ∧
           t2.retryCount ≤ t3.retryCount ∧
           t3.retryCount ≤ t0.maxRetries + 1)) :=
  ⟨by decide, rfl,
   claim7_retry_then_give_up c7Registry "t7" "flaky_agent" "" "boom" 3
     (by decide) rfl⟩

/-- C8: absent the forced flag and governance keywords in the user text, the
meta-planner enters governance mode exactly when some agent in the
diagnostics metrics has `total_runs >= 5` and `failure_rate >= 0.6` and the
current frustration is `>= 0.4`; and the governance plan is the fixed
pipeline architect, security_review, validator, critic, curator, codegen in
that order, truncated to `max_steps`. -/
theorem claim8_governance_mode (userLast : String)
    (metrics : List AgentMetric) (frustration : ℚ)
    (hkw : govKeywords.any (fun kw => strContains (strLower userLast) kw) = false) :
    ((detectGovernanceIntent userLast false none metrics frustration).1 = true ↔
      (∃ m ∈ metrics, 5 ≤ m.totalRuns ∧ 6/10 ≤ m.failureRate) ∧
        4/10 ≤ frustration) ∧
      ∀ (pid : String) (maxSteps : Nat),
        (enrichPlan pid (buildGovernancePlan maxSteps)).map EnrichedStep.agent =
          governancePipeline.take maxSteps := by
  constructor
  · unfold detectGovernanceIntent
    simp only [hkw, Bool.false_eq_true, if_false]
    by_cases hfe :
        metrics.filter (fun m => 5 ≤ m.totalRuns && 6/10 ≤ m.failureRate) = []
    · simp only [hfe, List.map_nil, List.isEmpty_nil, if_true]
      rw [List.filter_eq_nil_iff] at hfe
      simp only [Bool.false_eq_true, false_iff]
      rintro ⟨⟨m, hm, hruns, hrate⟩, _⟩
      exact hfe m hm (by simp [hruns, hrate])
    · have hne : (List.map (fun m => m.agentName)
          (metrics.filter (fun m => 5 ≤ m.totalRuns && 6/10 ≤ m.failureRate))).isEmpty = false := by
        simp only [List.isEmpty_eq_false_iff_exists_mem]
        obtain ⟨m, hm⟩ := List.exists_mem_of_ne_nil _ hfe
        exact ⟨m.agentName, List.mem_map.2 ⟨m, hm, rfl⟩⟩
      simp only [hne, Bool.false_eq_true, if_false]
      by_cases hfr : frustration < 4/10
      · simp only [hfr, if_true, Bool.false_eq_true, false_iff]
        rintro ⟨_, hge⟩
        exact absurd hge (not_le.2 hfr)
      · simp only [hfr, if_false, true_iff]
        obtain ⟨m, hm⟩ := List.exists_mem_of_ne_nil _ hfe
        have hmm := List.mem_filter.1 hm
        refine ⟨⟨m, hmm.1, ?_, ?_⟩, not_lt.1 hfr⟩
        · have := hmm.2
          simp only [Bool.and_eq_true, decide_eq_true_eq] at this
          exact this.1
        · have := hmm.2
          simp only [Bool.and_eq_true, decide_eq_true_eq] at this
          exact this.2
  · intro pid maxSteps
    rcases Nat.lt_or_ge maxSteps 6 with h6 | h6
    · interval_cases maxSteps <;> rfl
    · obtain ⟨k, rfl⟩ : ∃ k, maxSteps = k + 6 := ⟨maxSteps - 6, by omega⟩
      rw [List.take_of_length_le (by simp [governancePipeline])]
      rfl

/-- Witness for C8: no governance keyword in "ciao", one agent with 10 runs
and failure rate 0.8, frustration 0.5. -/
theorem claim8_governance_mode_witness :
    govKeywords.any (fun kw => strContains (strLower "ciao") kw) = false ∧
      (((detectGovernanceIntent "ciao" false none
            [{ agentName := "x", failureRate := 8/10, totalRuns := 10 }]
            (1/2)).1 = true ↔
        (∃ m ∈ [({ agentName := "x", failureRate := 8/10,
                   totalRuns := 10 } : AgentMetric)],
            5 ≤ m.totalRuns ∧ 6/10 ≤ m.failureRate) ∧
          (4/10 : ℚ) ≤ 1/2) ∧
        ∀ (pid : String) (maxSteps : Nat),
          (enrichPlan pid (buildGovernancePlan maxSteps)).map
              EnrichedStep.agent =
            governancePipeline.take maxSteps) :=
  ⟨by decide,
   claim8_governance_mode "ciao"
     [{ agentName := "x", failureRate := 8/10, totalRuns := 10 }] (1/2)
     (by decide)⟩

end CognitiveOS

